import Mathlib

set_option maxRecDepth 8000

/-!
Verification of the NeuraResume backend (Backend/agents.py, Backend/main.py).

Strings are modelled as `List Char`.  Python `str.strip()` and the regex
class `\s` agree on the ASCII whitespace characters space, tab, newline,
carriage return, vertical tab and form feed; the model restricts attention
to those (non-ASCII whitespace is not exercised by any claim).
-/

namespace NeuraResume

/-- ASCII whitespace as recognised by Python `str.strip()` / regex `\s`. -/
def isPyWs (c : Char) : Bool :=
  c == ' ' || c == '\t' || c == '\n' || c == '\r' ||
  c == Char.ofNat 11 || c == Char.ofNat 12

/-- The backtick character (written via its code point). -/
def bq : Char := Char.ofNat 96

/-- Python `text.strip()`: drop ASCII whitespace from both ends. -/
def pyStrip (s : List Char) : List Char :=
  List.rdropWhile isPyWs (List.dropWhile isPyWs s)

/-- Python `text.startswith("```")`. -/
def startsWithFence (s : List Char) : Bool :=
  match s with
  | a :: b :: c :: _ => a == bq && b == bq && c == bq
  | _ => false

/-- Models `re.sub(r"^```(?:json)?\s*", "", text)` on a text that starts
with a fence: drop the three backticks, then a literal `json` tag if
present, then any run of whitespace.  (The regex always matches at
position 0 when the text starts with three backticks, and the greedy
optional group and star never need to backtrack because the remainder of
the pattern always succeeds.) -/
def dropFenceOpen (s : List Char) : List Char :=
  let t := s.drop 3
  let t' :=
    match t with
    | 'j' :: 's' :: 'o' :: 'n' :: rest => rest
    | _ => t
  t'.dropWhile isPyWs

/-- Models `re.sub(r"\s*```$", "", text)` on a text with no trailing
whitespace: if the text ends with three backticks, remove them and the
run of whitespace immediately before them; otherwise no match, text
unchanged.  (The leftmost match of the anchored pattern consumes exactly
the maximal whitespace run preceding the final backticks.) -/
def dropFenceClose (s : List Char) : List Char :=
  match s.reverse with
  | a :: b :: c :: rest =>
      if a == bq && b == bq && c == bq then
        (rest.dropWhile isPyWs).reverse
      else s
  | _ => s

/-- `clean_json_text` from Backend/agents.py lines 23-30:
strip, then if the text starts with a fence remove the opening fence
(with optional `json` tag and following whitespace) and a closing fence,
then strip again. -/
def clean_json_text (s : List Char) : List Char :=
  let t := pyStrip s
  let t' := if startsWithFence t then dropFenceClose (dropFenceOpen t) else t
  pyStrip t'

/-! ## Completion Invoker (`generate_json`, Backend/agents.py lines 32-51)

The chat-completion endpoint and Python's `json.loads` are external
collaborators; they are modelled as parameters.  `Endpoint.raiseErr` is a
network/endpoint exception, `Endpoint.reply none` a response whose message
content is `None` (then `clean_json_text(None)` raises `TypeError`), and
`Endpoint.reply (some s)` a textual completion `s`.  The `try/except` of
`generate_json` catches every exception and returns `None`. -/

/-- Python exceptions that can arise inside `generate_json`'s `try` block. -/
inductive PyErr where
  | endpointError : PyErr
  | typeError : PyErr
  | decodeError : PyErr
deriving DecidableEq

/-- Behaviour of one call to the chat-completion endpoint. -/
inductive Endpoint where
  | raiseErr : Endpoint
  | reply : Option (List Char) → Endpoint
deriving DecidableEq

/-- `generate_json` from Backend/agents.py lines 32-51: run the `try`
body (request, content extraction, normalization, `json.loads`), and on
any exception return `None` (the Absence value).  `loads` models
`json.loads`, returning a parsed value or raising. -/
def generate_json {α : Type} (loads : List Char → Except PyErr α) (ep : Endpoint) :
    Option α :=
  let body : Except PyErr α :=
    match ep with
    | .raiseErr => .error .endpointError
    | .reply none => .error .typeError
    | .reply (some s) => loads (clean_json_text s)
  match body with
  | .ok m => some m
  | .error _ => none

/-- A concrete stub `json.loads` used to instantiate theorems: accepts
exactly the text `{"a":1}`. -/
def stubLoads : List Char → Except PyErr Nat :=
  fun l => if l = "\x7b\"a\":1\x7d".toList then .ok 1 else .error .decodeError

/-! ## The `/analyze` handler (`analyze_resume`, Backend/main.py lines 37-113)

The four task agents all delegate to `generate_json`; for the handler
they are abstracted as one function from a task kind, the resume text and
the job description to a result-or-Absence.  The handler model also
returns the list of agent invocations it performed, in order, so that
"no task runs" is a provable statement. -/

/-- Dictionary keys of the aggregate response. -/
def keyAtsAnalyzer : List Char := "atsAnalyzer".toList

/-- Dictionary key of the optimizer slot. -/
def keyAtsOptimizer : List Char := "atsOptimizer".toList

/-- Dictionary key of the interview-coach slot. -/
def keyInterviewCoach : List Char := "interviewCoach".toList

/-- The only accepted upload content type. -/
def pdfContentType : List Char := "application/pdf".toList

/-- An uploaded file: its declared content type, whether `PdfReader`
succeeds on its bytes, and the per-page `extract_text()` results. -/
structure UploadedFile where
  contentType : List Char
  readOk : Bool
  pages : List (List Char)

/-- The `tasks` form field after `json.loads`: either invalid JSON, or an
object whose three flags are the truthiness of `runAtsAnalyzer`,
`runAtsOptimizer`, `runInterviewCoach` under `dict.get` (missing key →
`None` → false). -/
inductive TasksField where
  | invalid : TasksField
  | valid : Bool → Bool → Bool → TasksField

/-- One `/analyze` request. -/
structure AnalyzeRequest where
  resumeText : Option (List Char)
  jobDescription : Option (List Char)
  tasks : TasksField
  resumeFile : Option UploadedFile

/-- Lines 63-68 of main.py: `text = ""` then `text += page.extract_text() + "\n"`
for each page. -/
def extractedText (f : UploadedFile) : List Char :=
  f.pages.foldl (fun acc p => acc ++ p ++ ['\n']) []

/-- The three task agents, as invocation labels. -/
inductive AgentKind where
  | atsAnalyzer : AgentKind
  | atsOptimizer : AgentKind
  | interviewCoach : AgentKind
deriving DecidableEq

/-- Outcome of the `/analyze` handler: a JSON object (an ordered
key/value mapping, values being result-or-Absence) or an `HTTPException`
with a status code. -/
inductive HandlerResponse (α : Type) where
  | ok : List (List Char × Option α) → HandlerResponse α
  | httpError : Nat → HandlerResponse α

/-- Lines 93-97 of main.py: the `results` dict initialised with all three
slots `None`. -/
def initResults (α : Type) : List (List Char × Option α) :=
  [(keyAtsAnalyzer, none), (keyAtsOptimizer, none), (keyInterviewCoach, none)]

/-- Python dict assignment `m[k] = v` for a key already present. -/
def setKey {α : Type} (m : List (List Char × Option α)) (k : List Char) (v : Option α) :
    List (List Char × Option α) :=
  m.map (fun p => if p.1 = k then (k, v) else p)

/-- Python dict lookup `m[k]`, as an optional result. -/
def getKey {α : Type} (m : List (List Char × Option α)) (k : List Char) :
    Option (Option α) :=
  (m.find? (fun p => p.1 == k)).map Prod.snd

/-- Lines 56-91 of main.py: determine the resume text or fail with a 400.
File present: reject non-PDF content types; on PDF read failure fail;
otherwise take the concatenated page text.  Then fall back to the
`resumeText` field only when the text so far is the empty string and the
field is truthy (present and non-empty).  Finally reject when the result
is whitespace-only. -/
def resolveResumeText (req : AnalyzeRequest) : Except Nat (List Char) :=
  let fromFile : Except Nat (List Char) :=
    match req.resumeFile with
    | none => .ok []
    | some f =>
      if f.contentType = pdfContentType then
        if f.readOk then .ok (extractedText f) else .error 400
      else .error 400
  match fromFile with
  | .error code => .error code
  | .ok t0 =>
    let t1 :=
      if t0 = [] then
        match req.resumeText with
        | some rt => if rt = [] then t0 else rt
        | none => t0
      else t0
    if pyStrip t1 = [] then .error 400 else .ok t1

/-- Lines 99-113 of main.py: run each requested task in order, writing
its result (possibly Absence) into the corresponding slot. -/
def runTasks {α : Type} (agents : AgentKind → List Char → Option (List Char) → Option α)
    (a o c : Bool) (resume : List Char) (jd : Option (List Char)) :
    List (List Char × Option α) × List AgentKind :=
  let st0 : List (List Char × Option α) × List AgentKind := (initResults α, [])
  let st1 :=
    if a then (setKey st0.1 keyAtsAnalyzer (agents .atsAnalyzer resume jd),
               st0.2 ++ [AgentKind.atsAnalyzer])
    else st0
  let st2 :=
    if o then (setKey st1.1 keyAtsOptimizer (agents .atsOptimizer resume jd),
               st1.2 ++ [AgentKind.atsOptimizer])
    else st1
  let st3 :=
    if c then (setKey st2.1 keyInterviewCoach (agents .interviewCoach resume jd),
               st2.2 ++ [AgentKind.interviewCoach])
    else st2
  st3

/-- `analyze_resume` from Backend/main.py lines 37-113: parse the `tasks`
JSON (400 on failure), resolve the resume text (400 on failure), then run
the requested tasks and return the aggregate mapping.  The second
component records the agent invocations performed. -/
def analyze_resume {α : Type} (agents : AgentKind → List Char → Option (List Char) → Option α)
    (req : AnalyzeRequest) : HandlerResponse α × List AgentKind :=
  match req.tasks with
  | .invalid => (.httpError 400, [])
  | .valid a o c =>
    match resolveResumeText req with
    | .error code => (.httpError code, [])
    | .ok resume =>
      let st := runTasks agents a o c resume req.jobDescription
      (.ok st.1, st.2)

/-- A stub agent family (always failing) used to instantiate theorems. -/
def stubAgents : AgentKind → List Char → Option (List Char) → Option Nat :=
  fun _ _ _ => none

/-! ## The `/generate-answers` handler and the prompt templates

Question records arrive as arbitrary JSON objects, modelled as ordered
key/value lists; `dict.get` returns the stored value or Python `None`. -/

/-- A Python value stored in a question dict: `None` or a string.  (Only
the two fields the handler reads are ever inspected, so richer values are
not needed.) -/
inductive PyVal where
  | vnone : PyVal
  | vstr : List Char → PyVal
deriving DecidableEq

/-- A question record: a Python dict. -/
abbrev Quest := List (List Char × PyVal)

/-- Python `q.get(k)`: the stored value, or `None` when absent. -/
def pyGet (d : Quest) (k : List Char) : PyVal :=
  match d.find? (fun p => p.1 == k) with
  | some p => p.2
  | none => .vnone

/-- The `id` key. -/
def keyId : List Char := "id".toList

/-- The `question` key. -/
def keyQuestion : List Char := "question".toList

/-- Line 133 of main.py:
`[{"id": q.get("id"), "question": q.get("question")} for q in request.questions]`. -/
def simplified_questions (qs : List Quest) : List Quest :=
  qs.map (fun q => [(keyId, pyGet q keyId), (keyQuestion, pyGet q keyQuestion)])

/-- The fallback text used when the job description is falsy. -/
def notProvided : List Char := "Not provided.".toList

/-- Python `job_description if job_description else "Not provided."`:
falsy means `None` or the empty string. -/
def jdOrDefault (jd : Option (List Char)) : List Char :=
  match jd with
  | some j => if j = [] then notProvided else j
  | none => notProvided

/-- Text of the interview-coach f-string before `{resume_text}`
(agents.py lines 147-151). -/
def coachHead : List Char :=
  "\n    You are an INTERVIEW_COACH_AGENT.\n    Goal: Generate 30 interview questions (10 Easy, 10 Medium, 10 Hard).\n    \n    Resume Text:\n    ".toList

/-- Text of the interview-coach f-string between `{resume_text}` and the
job-description interpolation (agents.py lines 153-155). -/
def coachMid : List Char :=
  "\n    \n    Job Description:\n    ".toList

/-- Text of the interview-coach f-string after the job-description
interpolation (agents.py lines 156-167; `{{`/`}}` denote literal
braces). -/
def coachTail : List Char :=
  "\n    \n    Output must be a JSON object with the exact structure:\n    \x7b\n      \"targetRole\": \"...\",\n      \"difficultyDistribution\": \x7b \"easy\": 10, \"medium\": 10, \"hard\": 10 \x7d,\n      \"questions\": [\n        \x7b \"id\": \"Q1\", \"difficulty\": \"Easy\", \"category\": \"...\", \"question\": \"...\", \"basedOn\": \x7b \"resumeSection\": \"...\", \"keywords\": [\"...\"] \x7d, \"followUpHint\": \"...\" \x7d\n      ]\n    \x7d\n    \n    Return ONLY valid JSON.\n    ".toList

/-- The interview-coach prompt (agents.py lines 146-167). -/
def coachPrompt (resume : List Char) (jd : Option (List Char)) : List Char :=
  coachHead ++ resume ++ coachMid ++ jdOrDefault jd ++ coachTail

/-- `run_interview_coach` (agents.py lines 146-168): build the prompt and
delegate to the Completion Invoker, abstracted as `invoke`. -/
def run_interview_coach {α : Type} (invoke : List Char → Option α)
    (resume : List Char) (jd : Option (List Char)) : Option α :=
  invoke (coachPrompt resume jd)

/-- Text of the answer-generator f-string before `{resume_text}`
(agents.py lines 172-176). -/
def ansHead : List Char :=
  "\n    You are an INTERVIEW_PREP_EXPERT.\n    Goal: Generate model answers for the provided interview questions, tailored to the candidate\x27s resume.\n    \n    Resume Text:\n    ".toList

/-- Text of the answer-generator f-string between `{resume_text}` and the
job-description interpolation. -/
def ansMid1 : List Char :=
  "\n    \n    Job Description:\n    ".toList

/-- Text of the answer-generator f-string between the job-description
interpolation and `{questions_str}`. -/
def ansMid2 : List Char :=
  "\n    \n    Questions:\n    ".toList

/-- Text of the answer-generator f-string after `{questions_str}`
(agents.py lines 184-193). -/
def ansTail : List Char :=
  "\n    \n    Output must be a JSON object with the exact structure:\n    \x7b\n      \"answers\": [\n        \x7b \"questionId\": \"<id from input>\", \"question\": \"...\", \"answer\": \"<STAR method answer or technical explanation>\" \x7d\n      ]\n    \x7d\n    \n    Return ONLY valid JSON.\n    ".toList

/-- The answer-generator prompt (agents.py lines 170-193), with the
serialized question list already interpolated. -/
def answerPrompt (resume : List Char) (jd : Option (List Char)) (questionsStr : List Char) :
    List Char :=
  ansHead ++ resume ++ ansMid1 ++ jdOrDefault jd ++ ansMid2 ++ questionsStr ++ ansTail

/-- `run_interview_answer_generator` (agents.py lines 170-194):
`json.dumps` is an external collaborator modelled by `dumps`; build the
prompt and delegate to the Completion Invoker `invoke`. -/
def run_interview_answer_generator {α : Type} (invoke : List Char → Option α)
    (dumps : List Quest → List Char) (resume : List Char) (jd : Option (List Char))
    (questions : List Quest) : Option α :=
  invoke (answerPrompt resume jd (dumps questions))

/-- The `/generate-answers` request body (main.py lines 115-118). -/
structure GenerateAnswersRequest where
  resumeText : List Char
  jobDescription : Option (List Char)
  questions : List Quest

/-- `generate_answers` from Backend/main.py lines 121-139: simplify the
question records to `{id, question}` pairs, then call the
answer-generator agent. -/
def generate_answers {α : Type} (invoke : List Char → Option α)
    (dumps : List Quest → List Char) (req : GenerateAnswersRequest) : Option α :=
  run_interview_answer_generator invoke dumps req.resumeText req.jobDescription
    (simplified_questions req.questions)

/-- `t` occurs as a contiguous substring of `s`. -/
def containsSub (t s : List Char) : Prop :=
  ∃ u v, s = u ++ t ++ v

/-- The difficulty-distribution request in the coach prompt's goal line. -/
def distributionText : List Char :=
  "(10 Easy, 10 Medium, 10 Hard)".toList

/-- The difficulty-distribution line of the coach prompt's JSON schema. -/
def distributionSchemaText : List Char :=
  "\"difficultyDistribution\": \x7b \"easy\": 10, \"medium\": 10, \"hard\": 10 \x7d".toList

/-! ## Helper lemmas -/

/-- A stripped text has no leading whitespace. -/
theorem dropWhile_pyStrip (s : List Char) :
    List.dropWhile isPyWs (pyStrip s) = pyStrip s := by
  unfold pyStrip
  set u := List.dropWhile isPyWs s with hu
  have hdu : List.dropWhile isPyWs u = u := by
    rw [hu]
    exact List.dropWhile_idempotent isPyWs s
  obtain ⟨t, ht⟩ := List.rdropWhile_prefix isPyWs u
  cases hv : List.rdropWhile isPyWs u with
  | nil => rfl
  | cons a w =>
    have hu2 : u = a :: (w ++ t) := by rw [← ht, hv]; rfl
    have hpa : isPyWs a = false := by
      by_contra hcon
      have hpa' : isPyWs a = true := by revert hcon; cases isPyWs a <;> simp
      rw [hu2, List.dropWhile_cons, if_pos hpa'] at hdu
      have hlen : (List.dropWhile isPyWs (w ++ t)).length ≤ (w ++ t).length :=
        List.IsSuffix.length_le (List.dropWhile_suffix isPyWs)
      rw [hdu] at hlen
      simp [List.length_cons] at hlen
    rw [List.dropWhile_cons, if_neg (by simp [hpa])]

/-- A stripped text has no trailing whitespace. -/
theorem rdropWhile_pyStrip (s : List Char) :
    List.rdropWhile isPyWs (pyStrip s) = pyStrip s := by
  unfold pyStrip
  exact List.rdropWhile_idempotent isPyWs _

/-- Python `strip` is idempotent. -/
theorem pyStrip_idem (s : List Char) : pyStrip (pyStrip s) = pyStrip s := by
  conv_lhs => rw [pyStrip]
  rw [dropWhile_pyStrip, rdropWhile_pyStrip]

/-- The normalizer's output is already stripped. -/
theorem pyStrip_clean (s : List Char) :
    pyStrip (clean_json_text s) = clean_json_text s := by
  unfold clean_json_text
  exact pyStrip_idem _

/-- Unfolding of `clean_json_text` without `let` bindings. -/
theorem clean_json_text_eq_ite (s : List Char) :
    clean_json_text s =
      pyStrip (if startsWithFence (pyStrip s) then
                 dropFenceClose (dropFenceOpen (pyStrip s))
               else pyStrip s) := rfl

/-- When the stripped input does not open with a fence, `clean_json_text`
is exactly `strip`. -/
theorem clean_eq_pyStrip_of_not_fence (s : List Char)
    (h : startsWithFence (pyStrip s) = false) :
    clean_json_text s = pyStrip s := by
  rw [clean_json_text_eq_ite, h]
  simp [pyStrip_idem]

/-- Dict assignment to an existing key leaves the key list unchanged. -/
theorem setKey_fst {α : Type} (m : List (List Char × Option α)) (k : List Char) (v : Option α) :
    (setKey m k v).map Prod.fst = m.map Prod.fst := by
  unfold setKey
  rw [List.map_map]
  apply List.map_congr_left
  intro p _
  by_cases h : p.1 = k
  · simp [h]
  · simp [h]

/-- Whatever tasks run, the aggregate mapping keeps exactly the three
fixed keys in order. -/
theorem runTasks_fst {α : Type} (agents : AgentKind → List Char → Option (List Char) → Option α)
    (a o c : Bool) (resume : List Char) (jd : Option (List Char)) :
    ((runTasks agents a o c resume jd).1).map Prod.fst =
      [keyAtsAnalyzer, keyAtsOptimizer, keyInterviewCoach] := by
  cases a <;> cases o <;> cases c <;>
    simp [runTasks, setKey_fst, initResults]

/-- An unrequested analyzer slot stays at the Absence value. -/
theorem runTasks_analyzer_none {α : Type}
    (agents : AgentKind → List Char → Option (List Char) → Option α)
    (o c : Bool) (resume : List Char) (jd : Option (List Char)) :
    getKey (runTasks agents false o c resume jd).1 keyAtsAnalyzer = some none := by
  cases o <;> cases c <;> rfl

/-- An unrequested optimizer slot stays at the Absence value. -/
theorem runTasks_optimizer_none {α : Type}
    (agents : AgentKind → List Char → Option (List Char) → Option α)
    (a c : Bool) (resume : List Char) (jd : Option (List Char)) :
    getKey (runTasks agents a false c resume jd).1 keyAtsOptimizer = some none := by
  cases a <;> cases c <;> rfl

/-- An unrequested coach slot stays at the Absence value. -/
theorem runTasks_coach_none {α : Type}
    (agents : AgentKind → List Char → Option (List Char) → Option α)
    (a o : Bool) (resume : List Char) (jd : Option (List Char)) :
    getKey (runTasks agents a o false resume jd).1 keyInterviewCoach = some none := by
  cases a <;> cases o <;> rfl

/-- A requested analyzer slot holds exactly the agent's outcome. -/
theorem runTasks_analyzer_run {α : Type}
    (agents : AgentKind → List Char → Option (List Char) → Option α)
    (o c : Bool) (resume : List Char) (jd : Option (List Char)) :
    getKey (runTasks agents true o c resume jd).1 keyAtsAnalyzer =
      some (agents .atsAnalyzer resume jd) := by
  cases o <;> cases c <;> rfl

/-- A requested optimizer slot holds exactly the agent's outcome. -/
theorem runTasks_optimizer_run {α : Type}
    (agents : AgentKind → List Char → Option (List Char) → Option α)
    (a c : Bool) (resume : List Char) (jd : Option (List Char)) :
    getKey (runTasks agents a true c resume jd).1 keyAtsOptimizer =
      some (agents .atsOptimizer resume jd) := by
  cases a <;> cases c <;> rfl

/-- A requested coach slot holds exactly the agent's outcome. -/
theorem runTasks_coach_run {α : Type}
    (agents : AgentKind → List Char → Option (List Char) → Option α)
    (a o : Bool) (resume : List Char) (jd : Option (List Char)) :
    getKey (runTasks agents a o true resume jd).1 keyInterviewCoach =
      some (agents .interviewCoach resume jd) := by
  cases a <;> cases o <;> rfl

/-- The page-concatenation fold never shrinks its accumulator. -/
theorem foldl_pages_length (l : List (List Char)) (acc : List Char) :
    acc.length ≤ (l.foldl (fun acc p => acc ++ p ++ ['\n']) acc).length := by
  induction l generalizing acc with
  | nil => simp
  | cons p t ih =>
    have h1 : acc.length ≤ (acc ++ p ++ ['\n']).length := by
      simp [List.length_append]
    exact le_trans h1 (ih (acc ++ p ++ ['\n']))

/-- A PDF with at least one page extracts to a non-empty string (each
page contributes at least the appended newline). -/
theorem extractedText_ne_nil (f : UploadedFile) (h : f.pages ≠ []) :
    extractedText f ≠ [] := by
  unfold extractedText
  cases hp : f.pages with
  | nil => exact absurd hp h
  | cons q qs =>
    intro hcontra
    rw [List.foldl_cons] at hcontra
    have hlen := foldl_pages_length qs ([] ++ q ++ ['\n'])
    rw [hcontra] at hlen
    simp [List.length_append] at hlen

/-- A substring of `s` is a substring of `s ++ r`. -/
theorem containsSub_append_left {t s r : List Char} (h : containsSub t s) :
    containsSub t (s ++ r) := by
  obtain ⟨u, v, rfl⟩ := h
  exact ⟨u, v ++ r, by simp [List.append_assoc]⟩

/-- A substring of `s` is a substring of `l ++ s`. -/
theorem containsSub_append_right {t s l : List Char} (h : containsSub t s) :
    containsSub t (l ++ s) := by
  obtain ⟨u, v, rfl⟩ := h
  exact ⟨l ++ u, v, by simp [List.append_assoc]⟩

/-! ## Claims -/

/-- Claim C1, counterexample: `clean_json_text` is not idempotent.  On
the input `"``` ```x"` one application yields `"```x"` (the removed
opening fence exposes a second fence, and the trailing regex finds no
closing fence), while a second application strips the exposed fence and
yields `"x"`. -/
theorem clean_json_text_not_idempotent :
    clean_json_text (clean_json_text ("``` ```x".toList)) ≠
      clean_json_text ("``` ```x".toList) := by decide

/-- Claim C1, amended: `clean_json_text` is idempotent on every input
whose cleaned result does not itself begin with a triple-backtick fence
(the situation the spec describes with "the second pass finds no
fence"): if `clean_json_text s` does not start with a fence, then
applying `clean_json_text` twice equals applying it once. -/
theorem clean_json_text_idem_of_output_unfenced (s : List Char)
    (h : startsWithFence (clean_json_text s) = false) :
    clean_json_text (clean_json_text s) = clean_json_text s := by
  have h2 : pyStrip (clean_json_text s) = clean_json_text s := pyStrip_clean s
  have h3 : startsWithFence (pyStrip (clean_json_text s)) = false := by
    rw [h2]; exact h
  rw [clean_eq_pyStrip_of_not_fence _ h3, h2]

/-- Claim C1, witness for the amended theorem at a concrete input. -/
theorem clean_json_text_idem_witness :
    startsWithFence (clean_json_text ("  \x7b\"a\":1\x7d ".toList)) = false ∧
    clean_json_text (clean_json_text ("  \x7b\"a\":1\x7d ".toList)) =
      clean_json_text ("  \x7b\"a\":1\x7d ".toList) :=
  ⟨by decide, clean_json_text_idem_of_output_unfenced _ (by decide)⟩

/-- Claim C4: `clean_json_text` applied to `"```json\n{"a":1}\n```"`
yields `"{"a":1}"`; for every input whose trimmed form does not begin
with a fence the output is exactly the trimmed input; and for every
input whose trimmed form does begin with a fence the output is the
re-trimmed result of removing one leading fence (with optional `json`
tag and following whitespace) and one trailing fence. -/
theorem clean_json_text_spec :
    clean_json_text ("```json\n\x7b\"a\":1\x7d\n```".toList) = "\x7b\"a\":1\x7d".toList ∧
    (∀ s : List Char, startsWithFence (pyStrip s) = false → clean_json_text s = pyStrip s) ∧
    (∀ s : List Char, startsWithFence (pyStrip s) = true →
      clean_json_text s = pyStrip (dropFenceClose (dropFenceOpen (pyStrip s)))) := by
  refine ⟨by decide, fun s h => clean_eq_pyStrip_of_not_fence s h, fun s h => ?_⟩
  rw [clean_json_text_eq_ite, h]
  simp

/-- Claim C4, witness: both conditional parts applied at concrete
inputs. -/
theorem clean_json_text_spec_witness :
    clean_json_text ("  hi  ".toList) = pyStrip ("  hi  ".toList) ∧
    clean_json_text ("```x```".toList) =
      pyStrip (dropFenceClose (dropFenceOpen (pyStrip ("```x```".toList)))) :=
  ⟨clean_json_text_spec.2.1 _ (by decide), clean_json_text_spec.2.2 _ (by decide)⟩

/-- Claim C9: the trailing fence is removed only when the trimmed input
begins with a fence; when it does not, the output is exactly the trimmed
input — in particular, a trailing `"```"` is left in place, as on the
concrete input `"abc\n```"`. -/
theorem clean_json_text_trailing_fence_kept :
    (∀ s : List Char, startsWithFence (pyStrip s) = false → clean_json_text s = pyStrip s) ∧
    clean_json_text ("abc\n```".toList) = "abc\n```".toList := by
  refine ⟨fun s h => clean_eq_pyStrip_of_not_fence s h, by decide⟩

/-- Claim C9, witness: the universal part applied at a concrete input
that ends with a fence. -/
theorem clean_json_text_trailing_fence_kept_witness :
    clean_json_text ("z ```".toList) = pyStrip ("z ```".toList) :=
  clean_json_text_trailing_fence_kept.1 _ (by decide)

/-- Claim C2: `generate_json` never throws — for every `json.loads`
behaviour it returns an `Option`: the Absence value on an endpoint
error, on missing message content, and on a parse failure of the
normalized text; and the parsed mapping when the normalized endpoint
text parses. -/
theorem generate_json_never_throws :
    ∀ (α : Type) (loads : List Char → Except PyErr α),
      generate_json loads .raiseErr = none ∧
      generate_json loads (.reply none) = none ∧
      (∀ s m, loads (clean_json_text s) = .ok m →
        generate_json loads (.reply (some s)) = some m) ∧
      (∀ s e, loads (clean_json_text s) = .error e →
        generate_json loads (.reply (some s)) = none) := by
  intro α loads
  refine ⟨rfl, rfl, fun s m h => ?_, fun s e h => ?_⟩
  · simp [generate_json, h]
  · simp [generate_json, h]

/-- Claim C2, witness: with a stub `loads` accepting exactly `{"a":1}`,
a fenced valid reply parses to the mapping, and unparseable text, an
endpoint error and missing content all give Absence. -/
theorem generate_json_never_throws_witness :
    generate_json stubLoads (.reply (some ("```json\n\x7b\"a\":1\x7d\n```".toList))) = some 1 ∧
    generate_json stubLoads (.reply (some ("oops".toList))) = none ∧
    generate_json stubLoads .raiseErr = none ∧
    generate_json stubLoads (.reply none) = none :=
  ⟨(generate_json_never_throws Nat stubLoads).2.2.1 _ 1 (by rfl),
   (generate_json_never_throws Nat stubLoads).2.2.2 _ PyErr.decodeError (by rfl),
   (generate_json_never_throws Nat stubLoads).1,
   (generate_json_never_throws Nat stubLoads).2.1⟩

/-- Claim C3: every `/analyze` response that passes input validation has
exactly the three top-level keys `atsAnalyzer`, `atsOptimizer`,
`interviewCoach` in order, with every unrequested task's key mapped to
the Absence value; whenever validation passes the handler returns a
success response for every agent behaviour (task failures are data, not
exceptions); with `tasks={}` and valid resume text the response is
success with all three slots absent and no agent invoked; and every
requested task's key holds exactly its agent's outcome, so a failed
task (agent returned Absence) leaves its key at the Absence value. -/
theorem analyze_resume_aggregate_shape :
    (∀ (α : Type) (agents : AgentKind → List Char → Option (List Char) → Option α)
       (req : AnalyzeRequest) (m : List (List Char × Option α)) (calls : List AgentKind),
       analyze_resume agents req = (.ok m, calls) →
         m.map Prod.fst = [keyAtsAnalyzer, keyAtsOptimizer, keyInterviewCoach] ∧
         (∀ a o c, req.tasks = .valid a o c →
            (a = false → getKey m keyAtsAnalyzer = some none) ∧
            (o = false → getKey m keyAtsOptimizer = some none) ∧
            (c = false → getKey m keyInterviewCoach = some none))) ∧
    (∀ (α : Type) (agents : AgentKind → List Char → Option (List Char) → Option α)
       (req : AnalyzeRequest) (a o c : Bool) (resume : List Char),
       req.tasks = .valid a o c → resolveResumeText req = .ok resume →
         ∃ m calls, analyze_resume agents req = (.ok m, calls)) ∧
    (∀ (α : Type) (agents : AgentKind → List Char → Option (List Char) → Option α)
       (rt : List Char), pyStrip rt ≠ [] →
       analyze_resume agents ⟨some rt, none, .valid false false false, none⟩ =
         (.ok (initResults α), [])) ∧
    (∀ (α : Type) (agents : AgentKind → List Char → Option (List Char) → Option α)
       (req : AnalyzeRequest) (a o c : Bool) (resume : List Char)
       (m : List (List Char × Option α)) (calls : List AgentKind),
       req.tasks = .valid a o c → resolveResumeText req = .ok resume →
       analyze_resume agents req = (.ok m, calls) →
         (a = true →
           getKey m keyAtsAnalyzer = some (agents .atsAnalyzer resume req.jobDescription) ∧
           (agents .atsAnalyzer resume req.jobDescription = none →
             getKey m keyAtsAnalyzer = some none)) ∧
         (o = true →
           getKey m keyAtsOptimizer = some (agents .atsOptimizer resume req.jobDescription) ∧
           (agents .atsOptimizer resume req.jobDescription = none →
             getKey m keyAtsOptimizer = some none)) ∧
         (c = true →
           getKey m keyInterviewCoach = some (agents .interviewCoach resume req.jobDescription) ∧
           (agents .interviewCoach resume req.jobDescription = none →
             getKey m keyInterviewCoach = some none))) := by
  refine ⟨?_, ?_, ?_, ?_⟩
  · intro α agents req m calls h
    cases htasks : req.tasks with
    | invalid => simp [analyze_resume, htasks] at h
    | valid a o c =>
      cases hres : resolveResumeText req with
      | error code => simp [analyze_resume, htasks, hres] at h
      | ok resume =>
        simp [analyze_resume, htasks, hres] at h
        obtain ⟨h1, h2⟩ := h
        constructor
        · rw [← h1]
          exact runTasks_fst agents a o c resume req.jobDescription
        · intro a' o' c' htasks'
          injection htasks' with e1 e2 e3
          subst e1; subst e2; subst e3
          refine ⟨fun ha => ?_, fun ho => ?_, fun hc => ?_⟩
          · subst ha; rw [← h1]
            exact runTasks_analyzer_none agents o c resume req.jobDescription
          · subst ho; rw [← h1]
            exact runTasks_optimizer_none agents a c resume req.jobDescription
          · subst hc; rw [← h1]
            exact runTasks_coach_none agents a o resume req.jobDescription
  · intro α agents req a o c resume htasks hres
    exact ⟨(runTasks agents a o c resume req.jobDescription).1,
           (runTasks agents a o c resume req.jobDescription).2,
           by simp [analyze_resume, htasks, hres]⟩
  · intro α agents rt h
    have hrt : ¬ (rt = []) := fun e => h (by rw [e]; rfl)
    have hres : resolveResumeText ⟨some rt, none, .valid false false false, none⟩ =
        .ok rt := by
      have e1 : resolveResumeText ⟨some rt, none, .valid false false false, none⟩ =
          (if pyStrip (if rt = [] then [] else rt) = [] then Except.error 400
           else Except.ok (if rt = [] then [] else rt)) := rfl
      rw [e1, if_neg hrt, if_neg h]
    simp [analyze_resume, hres, runTasks, initResults]
  · intro α agents req a o c resume m calls htasks hres h
    simp [analyze_resume, htasks, hres] at h
    obtain ⟨h1, h2⟩ := h
    refine ⟨fun ha => ?_, fun ho => ?_, fun hc => ?_⟩
    · subst ha
      have he : getKey m keyAtsAnalyzer =
          some (agents .atsAnalyzer resume req.jobDescription) := by
        rw [← h1]
        exact runTasks_analyzer_run agents o c resume req.jobDescription
      exact ⟨he, fun hn => by rw [he, hn]⟩
    · subst ho
      have he : getKey m keyAtsOptimizer =
          some (agents .atsOptimizer resume req.jobDescription) := by
        rw [← h1]
        exact runTasks_optimizer_run agents a c resume req.jobDescription
      exact ⟨he, fun hn => by rw [he, hn]⟩
    · subst hc
      have he : getKey m keyInterviewCoach =
          some (agents .interviewCoach resume req.jobDescription) := by
        rw [← h1]
        exact runTasks_coach_run agents a o resume req.jobDescription
      exact ⟨he, fun hn => by rw [he, hn]⟩

/-- Claim C3, witness: the `tasks={}` scenario at concrete inputs, the
key-shape conclusion extracted from it, and a requested analyzer whose
(stub) agent fails, leaving its slot at Absence. -/
theorem analyze_resume_aggregate_shape_witness :
    (analyze_resume stubAgents ⟨some ("hello".toList), none, .valid false false false, none⟩ =
      (.ok (initResults Nat), []) ∧
    (initResults Nat).map Prod.fst = [keyAtsAnalyzer, keyAtsOptimizer, keyInterviewCoach]) ∧
    getKey (initResults Nat) keyAtsAnalyzer = some none :=
  have h1 := analyze_resume_aggregate_shape.2.2.1 Nat stubAgents ("hello".toList) (by decide)
  have h2 := (analyze_resume_aggregate_shape.2.2.2 Nat stubAgents
      ⟨some ("hello".toList), none, .valid true false false, none⟩ true false false
      ("hello".toList) (initResults Nat) [AgentKind.atsAnalyzer]
      rfl (by rfl) (by rfl)).1 rfl
  ⟨⟨h1, (analyze_resume_aggregate_shape.1 Nat stubAgents _ _ _ h1).1⟩, h2.2 rfl⟩

/-- Claim C5: a request with no file upload and an absent or
whitespace-only `resumeText` is rejected with a 400 error and no task
agent is invoked, whatever the task flags (or their JSON validity); and
likewise every request whose resume content is empty after extraction —
a valid PDF whose extracted text strips to nothing, unless a genuinely
empty extraction (no pages) is rescued by a non-empty `resumeText`
fallback — is rejected with 400 and no task agent is invoked. -/
theorem analyze_resume_rejects_empty_resume :
    (∀ (α : Type) (agents : AgentKind → List Char → Option (List Char) → Option α)
      (req : AnalyzeRequest),
      req.resumeFile = none →
      (req.resumeText = none ∨ ∃ rt, req.resumeText = some rt ∧ pyStrip rt = []) →
      analyze_resume agents req = (.httpError 400, [])) ∧
    (∀ (α : Type) (agents : AgentKind → List Char → Option (List Char) → Option α)
      (req : AnalyzeRequest) (f : UploadedFile),
      req.resumeFile = some f → f.contentType = pdfContentType → f.readOk = true →
      pyStrip (extractedText f) = [] →
      (extractedText f ≠ [] ∨ req.resumeText = none ∨
        ∃ rt, req.resumeText = some rt ∧ pyStrip rt = []) →
      analyze_resume agents req = (.httpError 400, [])) := by
  constructor
  · intro α agents req hfile htext
    have hres : resolveResumeText req = .error 400 := by
      unfold resolveResumeText
      rw [hfile]
      rcases htext with hnone | ⟨rt, hsome, hws⟩
      · rw [hnone]
        simp [pyStrip, List.rdropWhile]
      · rw [hsome]
        by_cases hrt : rt = []
        · subst hrt; simp [pyStrip, List.rdropWhile]
        · simp [hrt, hws]
    cases htasks : req.tasks with
    | invalid => simp [analyze_resume, htasks]
    | valid a o c => simp [analyze_resume, htasks, hres]
  · intro α agents req f hfile hct hok hws hcase
    have hres : resolveResumeText req = .error 400 := by
      unfold resolveResumeText
      rw [hfile]
      rcases hcase with hne | hnone | ⟨rt, hsome, hwrt⟩
      · simp [hct, hok, hne, hws]
      · by_cases he : extractedText f = []
        · simp [hct, hok, he, hnone, pyStrip, List.rdropWhile]
        · simp [hct, hok, he, hws]
      · by_cases he : extractedText f = []
        · rw [hsome]
          by_cases hrt : rt = []
          · subst hrt; simp [hct, hok, he, pyStrip, List.rdropWhile]
          · simp [hct, hok, he, hrt, hwrt]
        · simp [hct, hok, he, hws]
    cases htasks : req.tasks with
    | invalid => simp [analyze_resume, htasks]
    | valid a o c => simp [analyze_resume, htasks, hres]

/-- Claim C5, witness: whitespace-only `resumeText`, no file, analyzer
requested — rejected with 400 and no agent call; and a zero-page PDF
(extraction yields nothing) with no `resumeText` — also rejected with
400 and no agent call. -/
theorem analyze_resume_rejects_empty_resume_witness :
    analyze_resume stubAgents ⟨some ("   ".toList), none, .valid true false false, none⟩ =
      (.httpError 400, []) ∧
    analyze_resume stubAgents
      ⟨none, none, .valid true false false, some ⟨pdfContentType, true, []⟩⟩ =
      (.httpError 400, []) :=
  ⟨analyze_resume_rejects_empty_resume.1 Nat stubAgents _ rfl
     (Or.inr ⟨"   ".toList, rfl, by decide⟩),
   analyze_resume_rejects_empty_resume.2 Nat stubAgents _
     ⟨pdfContentType, true, []⟩ rfl rfl rfl (by decide) (Or.inr (Or.inl rfl))⟩

/-- Claim C6: a request carrying an uploaded file whose content type is
not `application/pdf` is rejected with a 400 error before any task runs,
for every `tasks` field. -/
theorem analyze_resume_rejects_non_pdf :
    ∀ (α : Type) (agents : AgentKind → List Char → Option (List Char) → Option α)
      (req : AnalyzeRequest) (f : UploadedFile),
      req.resumeFile = some f → f.contentType ≠ pdfContentType →
      analyze_resume agents req = (.httpError 400, []) := by
  intro α agents req f hfile hct
  have hres : resolveResumeText req = .error 400 := by
    unfold resolveResumeText
    rw [hfile]
    simp [hct]
  cases htasks : req.tasks with
  | invalid => simp [analyze_resume, htasks]
  | valid a o c => simp [analyze_resume, htasks, hres]

/-- Claim C6, witness: a `text/plain` upload with all tasks requested is
rejected with 400 and no agent call. -/
theorem analyze_resume_rejects_non_pdf_witness :
    analyze_resume stubAgents
      ⟨none, none, .valid true true true, some ⟨"text/plain".toList, true, []⟩⟩ =
      (.httpError 400, []) :=
  analyze_resume_rejects_non_pdf Nat stubAgents _ ⟨"text/plain".toList, true, []⟩ rfl
    (by decide)

/-- Claim C10: when a valid PDF extracts to non-empty but
whitespace-only text, the `resumeText` fallback is not taken (it applies
only to the empty string), so the request is rejected with 400 even
though a non-empty `resumeText` was supplied. -/
theorem analyze_resume_ignores_text_for_whitespace_pdf :
    ∀ (α : Type) (agents : AgentKind → List Char → Option (List Char) → Option α)
      (req : AnalyzeRequest) (f : UploadedFile) (rt : List Char),
      req.resumeFile = some f → f.contentType = pdfContentType → f.readOk = true →
      f.pages ≠ [] → pyStrip (extractedText f) = [] →
      req.resumeText = some rt → rt ≠ [] →
      analyze_resume agents req = (.httpError 400, []) := by
  intro α agents req f rt hfile hct hok hpages hws htext hrt
  have hne := extractedText_ne_nil f hpages
  have hres : resolveResumeText req = .error 400 := by
    unfold resolveResumeText
    rw [hfile]
    simp [hct, hok, hne, hws]
  cases htasks : req.tasks with
  | invalid => simp [analyze_resume, htasks]
  | valid a o c => simp [analyze_resume, htasks, hres]

/-- Claim C10, witness: a one-page PDF extracting to `""` (so the
accumulated text is `"\n"`) together with `resumeText = "hello"` is
rejected with 400. -/
theorem analyze_resume_ignores_text_for_whitespace_pdf_witness :
    analyze_resume stubAgents
      ⟨some ("hello".toList), none, .valid true false false,
        some ⟨pdfContentType, true, [[]]⟩⟩ =
      (.httpError 400, []) :=
  analyze_resume_ignores_text_for_whitespace_pdf Nat stubAgents _
    ⟨pdfContentType, true, [[]]⟩ ("hello".toList) rfl rfl rfl (by decide) (by decide)
    rfl (by decide)

/-- Claim C7: `/generate-answers` forwards to the answer-generator agent
the question list in which each record keeps exactly the `id` and
`question` fields of the corresponding input record (in the same order),
all other fields being dropped before the prompt is built. -/
theorem generate_answers_forwards_only_id_and_question :
    ∀ (α : Type) (invoke : List Char → Option α) (dumps : List Quest → List Char)
      (req : GenerateAnswersRequest),
      generate_answers invoke dumps req =
        run_interview_answer_generator invoke dumps req.resumeText req.jobDescription
          (simplified_questions req.questions) ∧
      (simplified_questions req.questions).map (fun q => q.map Prod.fst) =
        req.questions.map (fun _ => [keyId, keyQuestion]) ∧
      (simplified_questions req.questions).map (fun q => pyGet q keyId) =
        req.questions.map (fun q => pyGet q keyId) ∧
      (simplified_questions req.questions).map (fun q => pyGet q keyQuestion) =
        req.questions.map (fun q => pyGet q keyQuestion) := by
  intro α invoke dumps req
  refine ⟨rfl, ?_, ?_, ?_⟩ <;>
    simp only [simplified_questions, List.map_map] <;>
    apply List.map_congr_left <;>
    intro q _ <;> rfl

/-- Claim C8: the Interview Coach prompt contains the 10 Easy / 10
Medium / 10 Hard requirement — both in its goal line and in its JSON
schema — for every resume text and every optional job description. -/
theorem coach_prompt_requests_ten_ten_ten :
    ∀ (resume : List Char) (jd : Option (List Char)),
      containsSub distributionText (coachPrompt resume jd) ∧
      containsSub distributionSchemaText (coachPrompt resume jd) := by
  intro resume jd
  constructor
  · have h : containsSub distributionText coachHead :=
      ⟨("\n    You are an INTERVIEW_COACH_AGENT.\n    Goal: Generate 30 interview questions ".toList),
       (".\n    \n    Resume Text:\n    ".toList), by decide⟩
    exact containsSub_append_left (containsSub_append_left
      (containsSub_append_left (containsSub_append_left h)))
  · have h : containsSub distributionSchemaText coachTail :=
      ⟨("\n    \n    Output must be a JSON object with the exact structure:\n    \x7b\n      \"targetRole\": \"...\",\n      ".toList),
       (",\n      \"questions\": [\n        \x7b \"id\": \"Q1\", \"difficulty\": \"Easy\", \"category\": \"...\", \"question\": \"...\", \"basedOn\": \x7b \"resumeSection\": \"...\", \"keywords\": [\"...\"] \x7d, \"followUpHint\": \"...\" \x7d\n      ]\n    \x7d\n    \n    Return ONLY valid JSON.\n    ".toList), by decide⟩
    exact containsSub_append_right h

end NeuraResume
